import Mathlib

/-!
Verification development for the Linux 5.3.1 I2C OF-support core
(drivers/i2c/i2c-core-of.c).

The file shallowly embeds the node-to-device lifecycle manager: the
descriptor builder (of_i2c_get_board_info), the claim-and-register paths
(of_i2c_register_device, of_i2c_register_devices, of_i2c_notify), the
lookup resolvers (of_find_i2c_device_by_node, of_find_i2c_adapter_by_node)
and the sysfs fallback matcher (i2c_of_match_device_sysfs).

External services that the source file calls but that are not part of
src/ (the OF tree primitives, the registry calls i2c_new_device and
i2c_unregister_device, the verify helpers, sysfs_streq, the sentinel
constants of dt-bindings) are modelled from the specification; each such
definition carries a doc comment saying so.

Machine integers are Nat with explicit 32-bit masking where the source
relies on u32 behaviour.  Stateful code is explicit state passing over a
World value; every operation additionally returns the list of observable
events (descriptor builds, registrar calls, reference get/put) so that
claims about calls "not happening" are statable.
-/

/-- Modelled from the spec: the ten-bit-address sentinel of
dt-bindings/i2c/i2c.h (not under src/), the "high marker bit" of a raw
u32 address, bit 31. -/
def I2C_TEN_BIT_ADDRESS : Nat := 0x80000000

/-- Modelled from the spec: the own-slave-address sentinel of
dt-bindings/i2c/i2c.h (not under src/), the second-highest bit of a raw
u32 address, bit 30. -/
def I2C_OWN_SLAVE_ADDRESS : Nat := 0x40000000

/-- All-ones mask of a u32; x &&& (U32_MASK ^^^ m) is the Nat rendering of
the C expression x &= ~m on a 32-bit unsigned value. -/
def U32_MASK : Nat := 0xFFFFFFFF

/-- Modelled from the spec: client flag bit for ten-bit addressing
(linux/i2c.h, not under src/). -/
def I2C_CLIENT_TEN : Nat := 0x10

/-- Modelled from the spec: client flag bit for an own slave address
(linux/i2c.h, not under src/). -/
def I2C_CLIENT_SLAVE : Nat := 0x20

/-- Modelled from the spec: client flag bit for host-notify
(linux/i2c.h, not under src/). -/
def I2C_CLIENT_HOST_NOTIFY : Nat := 0x40

/-- Modelled from the spec: client flag bit for a wakeup source
(linux/i2c.h, not under src/). -/
def I2C_CLIENT_WAKE : Nat := 0x80

deriving instance DecidableEq for Except

/-- A description-tree node as seen through the OF attribute reads the
source performs: the modalias string (none when of_modalias_node fails),
the u32 "reg" property read (Except carries the errno the OF layer
returns on failure), the boolean "host-notify" property and the presence
of a "wakeup-source" property, plus the tree shape (name, availability,
parent, children) used by the walk and the notifier. -/
structure OFNode where
  name : String
  available : Bool
  parent : Option Nat
  children : List Nat
  modalias : Option String
  reg : Except Int Nat
  hostNotify : Bool
  wakeupSource : Bool
deriving DecidableEq

/-- The i2c_board_info fields the source populates. -/
structure BoardInfo where
  type : String
  addr : Nat
  flags : Nat
  of_node : Nat
deriving DecidableEq

/-- Embedding of of_i2c_get_board_info: build an i2c_board_info from a
node.  Modalias failure yields -EINVAL (-22); a failed "reg" read
propagates the OF errno; the two sentinel bits of the raw address are
tested and cleared in sequence; host-notify and wakeup-source set their
flag bits. -/
def of_i2c_get_board_info (nid : Nat) (node : OFNode) : Except Int BoardInfo :=
  match node.modalias with
  | none => Except.error (-22)
  | some ty =>
    match node.reg with
    | Except.error ret => Except.error ret
    | Except.ok addr0 =>
      let addr1 := if addr0 &&& I2C_TEN_BIT_ADDRESS ≠ 0
                   then addr0 &&& (U32_MASK ^^^ I2C_TEN_BIT_ADDRESS) else addr0
      let flags1 := if addr0 &&& I2C_TEN_BIT_ADDRESS ≠ 0
                    then I2C_CLIENT_TEN else 0
      let addr2 := if addr1 &&& I2C_OWN_SLAVE_ADDRESS ≠ 0
                   then addr1 &&& (U32_MASK ^^^ I2C_OWN_SLAVE_ADDRESS) else addr1
      let flags2 := if addr1 &&& I2C_OWN_SLAVE_ADDRESS ≠ 0
                    then flags1 ||| I2C_CLIENT_SLAVE else flags1
      let flags3 := if node.hostNotify
                    then flags2 ||| I2C_CLIENT_HOST_NOTIFY else flags2
      let flags4 := if node.wakeupSource
                    then flags3 ||| I2C_CLIENT_WAKE else flags3
      Except.ok { type := ty, addr := addr2, flags := flags4, of_node := nid }

/-- Kind tag of an object living on the i2c bus: the registry holds both
client devices and adapters, which is why the lookup resolvers run a
type-verification step after the predicate search. -/
inductive DevKind where
  | client
  | adapter
deriving DecidableEq

/-- An object registered on the i2c bus: identity, kind, its source tree
node (dev.of_node), its parent device's source node (none when the device
has no parent, some p when a parent exists and carries node p), and the
board info it was created from (none for pre-existing adapters). -/
structure BusDev where
  id : Nat
  kind : DevKind
  node : Option Nat
  parentNode : Option (Option Nat)
  info : Option BoardInfo
deriving DecidableEq

/-- Observable events of one operation: a registry predicate search, a
reference acquire/release on a bus object, a descriptor-build attempt for
a node, a registrar create call for a node, a registrar unregister call. -/
inductive Ev where
  | busFind
  | getRef (id : Nat)
  | putRef (id : Nat)
  | buildInfo (nid : Nat)
  | newDev (nid : Nat)
  | unregDev (id : Nat)
deriving DecidableEq

/-- The mutable world: the set of node ids whose OF_POPULATED claim flag
is set, the list of objects currently on the i2c bus (registration
order), and the next fresh device id. -/
structure World where
  pop : List Nat
  bus : List BusDev
  nextId : Nat
deriving DecidableEq

/-- Modelled from the spec: the tree service's atomic flag test-and-set on
a node (OF_POPULATED claim flag); returns the previous value and the new
flag state. -/
def of_node_test_and_set_flag (pop : List Nat) (n : Nat) : Bool × List Nat :=
  if n ∈ pop then (true, pop) else (false, n :: pop)

/-- Modelled from the spec: the tree service's flag clear on a node. -/
def of_node_clear_flag (pop : List Nat) (n : Nat) : List Nat :=
  pop.filter (fun m => m ≠ n)

/-- Modelled from the spec: the tree service's flag check on a node. -/
def of_node_check_flag (pop : List Nat) (n : Nat) : Bool :=
  if n ∈ pop then true else false

/-- Modelled from the spec: the Registry service's create-device call
(i2c_new_device, not under src/): given the adapter it is attached to and
a descriptor, it either creates a live client carrying the descriptor and
a back-reference to the source node (success decided by the injected
oracle regOK) or returns nothing.  Emits the registrar-call event. -/
def i2c_new_device (regOK : BoardInfo → Bool) (adapNode : Option Nat)
    (w : World) (info : BoardInfo) : Option BusDev × World × List Ev :=
  if regOK info then
    let c : BusDev := { id := w.nextId, kind := DevKind.client,
                        node := some info.of_node,
                        parentNode := some adapNode, info := some info }
    (some c, { w with bus := w.bus ++ [c], nextId := w.nextId + 1 },
     [Ev.newDev info.of_node])
  else (none, w, [Ev.newDev info.of_node])

/-- Embedding of of_i2c_register_device: build the board info from the
node, on failure return the error; otherwise call the registrar, turning
a null client into -EINVAL (-22).  Emits the descriptor-build event and,
when the registrar is reached, its call event. -/
def of_i2c_register_device (regOK : BoardInfo → Bool) (tr : Nat → OFNode)
    (adapNode : Option Nat) (w : World) (nid : Nat) :
    Except Int BusDev × World × List Ev :=
  match of_i2c_get_board_info nid (tr nid) with
  | Except.error ret => (Except.error ret, w, [Ev.buildInfo nid])
  | Except.ok info =>
    match i2c_new_device regOK adapNode w info with
    | (none, w1, ev) => (Except.error (-22), w1, Ev.buildInfo nid :: ev)
    | (some c, w1, ev) => (Except.ok c, w1, Ev.buildInfo nid :: ev)

/-- Embedding of the loop body of of_i2c_register_devices, iterated over
the available children: test-and-set the claim flag (continue when
already set), register the device, and clear the flag again when
registration failed. -/
def registerDevicesLoop (regOK : BoardInfo → Bool) (tr : Nat → OFNode)
    (adapNode : Option Nat) (kids : List Nat) (w : World) :
    World × List Ev :=
  match kids with
  | [] => (w, [])
  | nid :: rest =>
    match of_node_test_and_set_flag w.pop nid with
    | (true, _) => registerDevicesLoop regOK tr adapNode rest w
    | (false, pop1) =>
      let w1 : World := { w with pop := pop1 }
      match of_i2c_register_device regOK tr adapNode w1 nid with
      | (Except.error _, w2, ev) =>
        let w3 : World := { w2 with pop := of_node_clear_flag w2.pop nid }
        let r := registerDevicesLoop regOK tr adapNode rest w3
        (r.1, ev ++ r.2)
      | (Except.ok _, w2, ev) =>
        let r := registerDevicesLoop regOK tr adapNode rest w2
        (r.1, ev ++ r.2)

/-- The i2c_adapter fields the source uses: its optional tree node. -/
structure i2c_adapter where
  of_node : Option Nat
deriving DecidableEq

/-- Embedding of of_i2c_register_devices: nothing to do when the adapter
has no node; find the "i2c-bus" container child by name, falling back to
the adapter node itself; walk the container's available children with the
claim-and-register loop. -/
def of_i2c_register_devices (regOK : BoardInfo → Bool) (tr : Nat → OFNode)
    (adap : i2c_adapter) (w : World) : World × List Ev :=
  match adap.of_node with
  | none => (w, [])
  | some anid =>
    let bus := match (tr anid).children.find? (fun c => (tr c).name = "i2c-bus") with
               | some b => b
               | none => anid
    let kids := (tr bus).children.filter (fun c => (tr c).available)
    registerDevicesLoop regOK tr (some anid) kids w

/-- Embedding of of_dev_node_match: the device's source node equals the
queried node pointer (both may be null). -/
def of_dev_node_match (data : Option Nat) (d : BusDev) : Bool :=
  d.node = data

/-- Embedding of of_dev_or_parent_node_match: the device's source node
matches, or the device has a parent and the parent's source node
matches. -/
def of_dev_or_parent_node_match (data : Option Nat) (d : BusDev) : Bool :=
  if d.node = data then true
  else
    match d.parentNode with
    | some pn => pn = data
    | none => false

/-- Modelled from the spec: the Registry service's find-device-by-
predicate (bus_find_device on the i2c bus type, not under src/): returns
the first registered object satisfying the predicate with its reference
acquired, and emits the search event. -/
def bus_find_device (w : World) (pred : BusDev → Bool) :
    Option BusDev × List Ev :=
  match w.bus.find? pred with
  | some d => (some d, [Ev.busFind, Ev.getRef d.id])
  | none => (none, [Ev.busFind])

/-- Modelled from the spec: the Registry service's type verification
is-handle-a-device (i2c_verify_client, not under src/). -/
def i2c_verify_client (d : BusDev) : Option BusDev :=
  if d.kind = DevKind.client then some d else none

/-- Modelled from the spec: the Registry service's type verification
is-handle-an-adapter (i2c_verify_adapter, not under src/). -/
def i2c_verify_adapter (d : BusDev) : Option BusDev :=
  if d.kind = DevKind.adapter then some d else none

/-- Embedding of of_find_i2c_device_by_node: predicate search with the
exact-node match, then client verification; when verification fails the
acquired reference is dropped and none is returned. -/
def of_find_i2c_device_by_node (w : World) (data : Option Nat) :
    Option BusDev × List Ev :=
  match bus_find_device w (of_dev_node_match data) with
  | (none, ev) => (none, ev)
  | (some d, ev) =>
    match i2c_verify_client d with
    | some c => (some c, ev)
    | none => (none, ev ++ [Ev.putRef d.id])

/-- Embedding of of_find_i2c_adapter_by_node: predicate search with the
node-or-parent match, then adapter verification; when verification fails
the acquired reference is dropped and none is returned. -/
def of_find_i2c_adapter_by_node (w : World) (data : Option Nat) :
    Option BusDev × List Ev :=
  match bus_find_device w (of_dev_or_parent_node_match data) with
  | (none, ev) => (none, ev)
  | (some d, ev) =>
    match i2c_verify_adapter d with
    | some a => (some a, ev)
    | none => (none, ev ++ [Ev.putRef d.id])

/-- Modelled from the spec: the Registry service's unregister-device
(i2c_unregister_device, not under src/), which clears the source node's
claim flag as part of normal teardown and removes the device from the
bus.  Emits the unregister event. -/
def i2c_unregister_device (w : World) (c : BusDev) : World × List Ev :=
  let w1 : World :=
    match c.node with
    | some n => { w with pop := of_node_clear_flag w.pop n }
    | none => w
  ({ w1 with bus := w1.bus.filter (fun d => d.id ≠ c.id) }, [Ev.unregDev c.id])

/-- Notifier return value NOTIFY_OK (linux/notifier.h). -/
def NOTIFY_OK : Int := 1

/-- Notifier stop mask (linux/notifier.h). -/
def NOTIFY_STOP_MASK : Int := 0x8000

/-- Modelled from the spec: the event-rejection encoding
notifier_from_errno (linux/notifier.h, not under src/); for the errno
magnitudes that occur here the kernel's bitwise-or formula coincides with
this sum. -/
def notifier_from_errno (e : Int) : Int :=
  if e = 0 then NOTIFY_OK else NOTIFY_STOP_MASK + (NOTIFY_OK - e)

/-- The tree-reconfiguration change kinds the notifier distinguishes
(of_reconfig_get_state_change result): node added, node removed, or no
state change (default switch branch). -/
inductive ReconfigChange where
  | add
  | remove
  | noChange
deriving DecidableEq

/-- Embedding of of_i2c_notify.  Add: resolve the mutated node's parent
to an adapter (no adapter: not for us), test-and-set the claim flag
(already set: drop the adapter reference and succeed), register the
device, drop the adapter reference, and on failure clear the flag and
return the rejection code.  Remove: nothing to do when the claim flag is
unset; look the device up by node (absent: nothing to do); unregister it
and drop the lookup reference.  Any other change kind falls through. -/
def of_i2c_notify (regOK : BoardInfo → Bool) (tr : Nat → OFNode)
    (w : World) (chg : ReconfigChange) (dn : Nat) :
    Int × World × List Ev :=
  match chg with
  | ReconfigChange.add =>
    match of_find_i2c_adapter_by_node w (tr dn).parent with
    | (none, ev0) => (NOTIFY_OK, w, ev0)
    | (some adap, ev0) =>
      match of_node_test_and_set_flag w.pop dn with
      | (true, _) => (NOTIFY_OK, w, ev0 ++ [Ev.putRef adap.id])
      | (false, pop1) =>
        let w1 : World := { w with pop := pop1 }
        match of_i2c_register_device regOK tr adap.node w1 dn with
        | (Except.error e, w2, ev1) =>
          (notifier_from_errno e,
           { w2 with pop := of_node_clear_flag w2.pop dn },
           ev0 ++ ev1 ++ [Ev.putRef adap.id])
        | (Except.ok _, w2, ev1) =>
          (NOTIFY_OK, w2, ev0 ++ ev1 ++ [Ev.putRef adap.id])
  | ReconfigChange.remove =>
    if of_node_check_flag w.pop dn then
      match of_find_i2c_device_by_node w (some dn) with
      | (none, ev0) => (NOTIFY_OK, w, ev0)
      | (some c, ev0) =>
        let r := i2c_unregister_device w c
        (NOTIFY_OK, r.1, ev0 ++ r.2 ++ [Ev.putRef c.id])
    else (NOTIFY_OK, w, [])
  | ReconfigChange.noChange => (NOTIFY_OK, w, [])

/-- Comparison events of the fallback matcher: the full compatible string
of an entry was compared against the device name, or its vendor-stripped
suffix was. -/
inductive MEv where
  | cmpFull (s : String)
  | cmpStripped (s : String)
deriving DecidableEq

/-- Modelled from the spec: the external sysfs-style string matching
helper (sysfs_streq, lib/string.c, not under src/); the spec specifies a
case-insensitive comparison of the two strings. -/
def sysfs_streq (s1 s2 : String) : Bool :=
  s1.toList.map Char.toLower == s2.toList.map Char.toLower

/-- The of_device_id field the fallback matcher reads. -/
structure of_device_id where
  compatible : String
deriving DecidableEq

/-- Text after the first comma of a character list, if any comma occurs
(the strchr call of the matcher). -/
def afterComma : List Char → Option (List Char)
  | [] => none
  | c :: cs => if c = ',' then some cs else afterComma cs

/-- The name the matcher compares in its second test: the text after the
first comma when one is present, otherwise the whole compatible string. -/
def stripVendorName (s : String) : String :=
  match afterComma s.toList with
  | none => s
  | some cs => String.mk cs

/-- Embedding of i2c_of_match_device_sysfs: scan the table until the
empty-compatible terminator; for each entry first compare the full
compatible string against the client name, then the vendor-stripped
suffix; return the first entry either comparison accepts.  The second
component records which comparisons ran, in order. -/
def i2c_of_match_device_sysfs (cname : String) :
    List of_device_id → Option of_device_id × List MEv
  | [] => (none, [])
  | m :: rest =>
    if m.compatible = "" then (none, [])
    else if sysfs_streq cname m.compatible then
      (some m, [MEv.cmpFull m.compatible])
    else if sysfs_streq cname (stripVendorName m.compatible) then
      (some m, [MEv.cmpFull m.compatible, MEv.cmpStripped m.compatible])
    else
      let r := i2c_of_match_device_sysfs cname rest
      (r.1, MEv.cmpFull m.compatible :: MEv.cmpStripped m.compatible :: r.2)

/-- The per-entry acceptance test of the fallback matcher: the full
compatible string or its vendor-stripped suffix compares equal to the
client name. -/
def entryMatches (cname : String) (m : of_device_id) : Bool :=
  sysfs_streq cname m.compatible || sysfs_streq cname (stripVendorName m.compatible)

lemma mask_comm_lemma :
    (U32_MASK ^^^ I2C_TEN_BIT_ADDRESS) &&& (U32_MASK ^^^ I2C_OWN_SLAVE_ADDRESS)
      = U32_MASK ^^^ (I2C_TEN_BIT_ADDRESS ||| I2C_OWN_SLAVE_ADDRESS) := by
  decide

lemma mask_keeps_own_lemma :
    (U32_MASK ^^^ I2C_TEN_BIT_ADDRESS) &&& I2C_OWN_SLAVE_ADDRESS
      = I2C_OWN_SLAVE_ADDRESS := by
  decide

/-- C3: a raw address with both the ten-bit-address sentinel and the
own-slave-address sentinel set yields a board info whose flags contain
both I2C_CLIENT_TEN and I2C_CLIENT_SLAVE and whose numeric address is the
raw value with both sentinel bits cleared; no sentinel bit remains in the
numeric address. -/
theorem both_sentinels_decoded (nid : Nat) (node : OFNode) (ty : String)
    (a : Nat) (hlt : a < 2 ^ 32)
    (h1 : a &&& I2C_TEN_BIT_ADDRESS ≠ 0)
    (h2 : a &&& I2C_OWN_SLAVE_ADDRESS ≠ 0)
    (hm : node.modalias = some ty)
    (hr : node.reg = Except.ok a) :
    ∃ info : BoardInfo,
      of_i2c_get_board_info nid node = Except.ok info
      ∧ info.flags &&& I2C_CLIENT_TEN ≠ 0
      ∧ info.flags &&& I2C_CLIENT_SLAVE ≠ 0
      ∧ info.addr
          = a &&& (U32_MASK ^^^ (I2C_TEN_BIT_ADDRESS ||| I2C_OWN_SLAVE_ADDRESS))
      ∧ info.addr &&& I2C_TEN_BIT_ADDRESS = 0
      ∧ info.addr &&& I2C_OWN_SLAVE_ADDRESS = 0 := by
  have h2a : a &&& (U32_MASK ^^^ I2C_TEN_BIT_ADDRESS) &&& I2C_OWN_SLAVE_ADDRESS ≠ 0 := by
    rw [Nat.land_assoc, mask_keeps_own_lemma]; exact h2
  cases hhn : node.hostNotify <;> cases hwk : node.wakeupSource <;>
    · simp only [of_i2c_get_board_info, hm, hr, hhn, hwk]
      rw [if_pos h1, if_pos h1, if_pos h2a, if_pos h2a]
      refine ⟨_, rfl, ?_, ?_, ?_, ?_, ?_⟩
      · simp only [Bool.false_eq_true, if_false, if_true]
        decide
      · simp only [Bool.false_eq_true, if_false, if_true]
        decide
      · simp only
        rw [Nat.land_assoc, mask_comm_lemma]
      · simp only
        rw [Nat.land_assoc, Nat.land_assoc,
            show (U32_MASK ^^^ I2C_OWN_SLAVE_ADDRESS) &&& I2C_TEN_BIT_ADDRESS
                = I2C_TEN_BIT_ADDRESS from by decide,
            show (U32_MASK ^^^ I2C_TEN_BIT_ADDRESS) &&& I2C_TEN_BIT_ADDRESS
                = 0 from by decide]
        simp
      · simp only
        rw [Nat.land_assoc,
            show (U32_MASK ^^^ I2C_OWN_SLAVE_ADDRESS) &&& I2C_OWN_SLAVE_ADDRESS
                = 0 from by decide]
        simp

/-- Concrete node with both sentinel bits set in its raw address, used to
instantiate the sentinel-decoding theorem. -/
def nodeBothSentinels : OFNode :=
  { name := "dev", available := true, parent := none, children := [],
    modalias := some "acme", reg := Except.ok 0xC0000050,
    hostNotify := false, wakeupSource := false }

theorem both_sentinels_decoded_witness :
    ∃ info : BoardInfo,
      of_i2c_get_board_info 7 nodeBothSentinels = Except.ok info
      ∧ info.flags &&& I2C_CLIENT_TEN ≠ 0
      ∧ info.flags &&& I2C_CLIENT_SLAVE ≠ 0
      ∧ info.addr
          = 0xC0000050 &&& (U32_MASK ^^^ (I2C_TEN_BIT_ADDRESS ||| I2C_OWN_SLAVE_ADDRESS))
      ∧ info.addr &&& I2C_TEN_BIT_ADDRESS = 0
      ∧ info.addr &&& I2C_OWN_SLAVE_ADDRESS = 0 :=
  both_sentinels_decoded 7 nodeBothSentinels "acme" 0xC0000050
    (by decide) (by decide) (by decide) rfl rfl

/-- C5: the board info built from a node carries the host-notify flag
exactly when the node's "host-notify" boolean attribute is true; with the
attribute absent or false the flag bit stays clear. -/
theorem host_notify_flag_iff (nid : Nat) (node : OFNode) (info : BoardInfo)
    (h : of_i2c_get_board_info nid node = Except.ok info) :
    (info.flags &&& I2C_CLIENT_HOST_NOTIFY ≠ 0) ↔ node.hostNotify = true := by
  rcases hm : node.modalias with _ | ty
  · simp only [of_i2c_get_board_info, hm] at h
    exact Except.noConfusion h
  · rcases hr : node.reg with ret | a
    · simp only [of_i2c_get_board_info, hm, hr] at h
      exact Except.noConfusion h
    · simp only [of_i2c_get_board_info, hm, hr] at h
      injection h with h
      subst h
      dsimp only
      split_ifs with h1 h2 h3 h4 <;> simp_all <;> decide

/-- Concrete node whose "host-notify" boolean attribute is true, used to
instantiate the host-notify theorem. -/
def nodeHostNotifyTrue : OFNode :=
  { name := "dev", available := true, parent := none, children := [],
    modalias := some "acme", reg := Except.ok 0x50,
    hostNotify := true, wakeupSource := false }

theorem host_notify_flag_iff_witness :
    (({ type := "acme", addr := 0x50, flags := 0x40, of_node := 5 } :
        BoardInfo).flags &&& I2C_CLIENT_HOST_NOTIFY ≠ 0)
      ↔ nodeHostNotifyTrue.hostNotify = true :=
  host_notify_flag_iff 5 nodeHostNotifyTrue
    { type := "acme", addr := 0x50, flags := 0x40, of_node := 5 } (by decide)

/-- C8: a remove event for a node whose claim flag is unset returns
NOTIFY_OK at once: the world is unchanged and the event trace is empty,
so no registry lookup, no reference operation and no unregistration
happened. -/
theorem remove_unpopulated_noop (regOK : BoardInfo → Bool)
    (tr : Nat → OFNode) (w : World) (dn : Nat) (h : dn ∉ w.pop) :
    of_i2c_notify regOK tr w ReconfigChange.remove dn = (NOTIFY_OK, w, []) := by
  simp only [of_i2c_notify, of_node_check_flag, h, if_false, ite_false,
             Bool.false_eq_true]

/-- Concrete world with a populated flag on node 9 only, used to
instantiate the remove-event no-op theorem at node 4. -/
def worldPopNine : World :=
  { pop := [9],
    bus := [{ id := 0, kind := DevKind.client, node := some 9,
              parentNode := some none, info := none }],
    nextId := 1 }

theorem remove_unpopulated_noop_witness :
    of_i2c_notify (fun _ => true) (fun _ => nodeHostNotifyTrue) worldPopNine
      ReconfigChange.remove 4 = (NOTIFY_OK, worldPopNine, []) :=
  remove_unpopulated_noop (fun _ => true) (fun _ => nodeHostNotifyTrue)
    worldPopNine 4 (by decide)

/-- Events that belong to a claim-and-register attempt proper: a
descriptor build or a registrar create call. -/
def isRegEvent : Ev → Bool
  | Ev.buildInfo _ => true
  | Ev.newDev _ => true
  | _ => false

lemma find_adapter_no_reg_events (w : World) (data : Option Nat) :
    ((of_find_i2c_adapter_by_node w data).2).filter isRegEvent = [] := by
  rcases hf : w.bus.find? (of_dev_or_parent_node_match data) with _ | d
  · simp [of_find_i2c_adapter_by_node, bus_find_device, hf, isRegEvent]
  · rcases hv : i2c_verify_adapter d with _ | x <;>
      simp [of_find_i2c_adapter_by_node, bus_find_device, hf, hv, isRegEvent]

/-- C1: once a node's claim flag is set, a bulk-walk iteration on that
node is a pure skip (state and event trace equal those of the remaining
walk), and an add-event on it returns NOTIFY_OK with the world unchanged
and no descriptor-build and no registrar-create event in its trace; in
particular no further live device is created for the node. -/
theorem claimed_node_second_attempt_noop (regOK : BoardInfo → Bool)
    (tr : Nat → OFNode) (adapNode : Option Nat) (rest : List Nat)
    (w : World) (nid : Nat) (h : nid ∈ w.pop) :
    registerDevicesLoop regOK tr adapNode (nid :: rest) w
        = registerDevicesLoop regOK tr adapNode rest w
    ∧ (of_i2c_notify regOK tr w ReconfigChange.add nid).1 = NOTIFY_OK
    ∧ (of_i2c_notify regOK tr w ReconfigChange.add nid).2.1 = w
    ∧ ((of_i2c_notify regOK tr w ReconfigChange.add nid).2.2).filter
        isRegEvent = [] := by
  have h1 : registerDevicesLoop regOK tr adapNode (nid :: rest) w
      = registerDevicesLoop regOK tr adapNode rest w := by
    simp [registerDevicesLoop, of_node_test_and_set_flag, h]
  have hno := find_adapter_no_reg_events w (tr nid).parent
  rcases hf : of_find_i2c_adapter_by_node w (tr nid).parent with ⟨op, ev0⟩
  rw [hf] at hno
  have hts : of_node_test_and_set_flag w.pop nid = (true, w.pop) := by
    simp [of_node_test_and_set_flag, h]
  cases op with
  | none =>
    exact ⟨h1, by simp [of_i2c_notify, hf], by simp [of_i2c_notify, hf],
           by simp only [of_i2c_notify, hf]; exact hno⟩
  | some adap =>
    refine ⟨h1, by simp [of_i2c_notify, hf, hts],
            by simp [of_i2c_notify, hf, hts], ?_⟩
    simp only [of_i2c_notify, hf, hts, List.filter_append, hno]
    simp [isRegEvent]

theorem claimed_node_second_attempt_noop_witness :
    registerDevicesLoop (fun _ => true) (fun _ => nodeHostNotifyTrue)
        (some 0) [9] worldPopNine
      = registerDevicesLoop (fun _ => true) (fun _ => nodeHostNotifyTrue)
          (some 0) [] worldPopNine
    ∧ (of_i2c_notify (fun _ => true) (fun _ => nodeHostNotifyTrue)
        worldPopNine ReconfigChange.add 9).1 = NOTIFY_OK
    ∧ (of_i2c_notify (fun _ => true) (fun _ => nodeHostNotifyTrue)
        worldPopNine ReconfigChange.add 9).2.1 = worldPopNine
    ∧ ((of_i2c_notify (fun _ => true) (fun _ => nodeHostNotifyTrue)
        worldPopNine ReconfigChange.add 9).2.2).filter isRegEvent = [] :=
  claimed_node_second_attempt_noop (fun _ => true)
    (fun _ => nodeHostNotifyTrue) (some 0) [] worldPopNine 9 (by decide)

lemma register_device_fails (regOK : BoardInfo → Bool) (tr : Nat → OFNode)
    (adapNode : Option Nat) (w : World) (nid : Nat)
    (hfail : ∀ info, of_i2c_get_board_info nid (tr nid) = Except.ok info →
      regOK info = false) :
    ∃ e ev, of_i2c_register_device regOK tr adapNode w nid
      = (Except.error e, w, ev) := by
  rcases hb : of_i2c_get_board_info nid (tr nid) with e | info
  · exact ⟨e, [Ev.buildInfo nid], by simp [of_i2c_register_device, hb]⟩
  · refine ⟨-22, [Ev.buildInfo nid, Ev.newDev info.of_node], ?_⟩
    simp [of_i2c_register_device, hb, i2c_new_device, hfail info hb]

lemma not_mem_clear_flag (p : List Nat) (n : Nat) :
    n ∉ of_node_clear_flag p n := by
  simp [of_node_clear_flag, List.mem_filter]

/-- C2: when a claim-and-register attempt proceeds on an unclaimed node
and then fails (the descriptor build errors, or the registrar refuses the
device), the node's claim flag is clear again after the operation, on the
bulk-walk path as well as on the add-event path. -/
theorem failed_attempt_clears_flag (regOK : BoardInfo → Bool)
    (tr : Nat → OFNode) (adapNode : Option Nat) (w : World) (nid : Nat)
    (h : nid ∉ w.pop)
    (hfail : ∀ info, of_i2c_get_board_info nid (tr nid) = Except.ok info →
      regOK info = false) :
    nid ∉ (registerDevicesLoop regOK tr adapNode [nid] w).1.pop
    ∧ nid ∉ ((of_i2c_notify regOK tr w ReconfigChange.add nid).2.1).pop := by
  constructor
  · obtain ⟨e, ev, hreg⟩ := register_device_fails regOK tr adapNode
      { w with pop := nid :: w.pop } nid hfail
    simp only [registerDevicesLoop, of_node_test_and_set_flag, h,
               if_neg, ite_false, hreg]
    exact not_mem_clear_flag _ nid
  · rcases hf : of_find_i2c_adapter_by_node w (tr nid).parent with ⟨op, ev0⟩
    cases op with
    | none => simpa [of_i2c_notify, hf] using h
    | some adap =>
      obtain ⟨e, ev, hreg⟩ := register_device_fails regOK tr adap.node
        { w with pop := nid :: w.pop } nid hfail
      have hts : of_node_test_and_set_flag w.pop nid
          = (false, nid :: w.pop) := by
        simp [of_node_test_and_set_flag, h]
      simp only [of_i2c_notify, hf, hts, hreg]
      exact not_mem_clear_flag _ nid

theorem failed_attempt_clears_flag_witness :
    9 ∉ (registerDevicesLoop (fun _ => false)
          (fun _ => nodeHostNotifyTrue) (some 0) [9]
          { pop := [], bus := [], nextId := 0 }).1.pop
    ∧ 9 ∉ ((of_i2c_notify (fun _ => false) (fun _ => nodeHostNotifyTrue)
          { pop := [], bus := [], nextId := 0 }
          ReconfigChange.add 9).2.1).pop :=
  failed_attempt_clears_flag (fun _ => false) (fun _ => nodeHostNotifyTrue)
    (some 0) { pop := [], bus := [], nextId := 0 } 9 (by decide)
    (fun _ _ => rfl)

lemma verify_client_some (d x : BusDev)
    (h : i2c_verify_client d = some x) : x.kind = DevKind.client := by
  unfold i2c_verify_client at h
  by_cases hk : d.kind = DevKind.client
  · rw [if_pos hk] at h
    injection h with h
    subst h
    exact hk
  · rw [if_neg hk] at h
    exact Option.noConfusion h

lemma verify_adapter_some (d x : BusDev)
    (h : i2c_verify_adapter d = some x) : x.kind = DevKind.adapter := by
  unfold i2c_verify_adapter at h
  by_cases hk : d.kind = DevKind.adapter
  · rw [if_pos hk] at h
    injection h with h
    subst h
    exact hk
  · rw [if_neg hk] at h
    exact Option.noConfusion h

/-- C9: when the predicate search of a node lookup yields an object that
fails the type-verification step, both lookup resolvers return the
not-found result with the acquired reference released again (the trace is
exactly search, get, put), and every non-null result of either resolver
is an object of the requested kind. -/
theorem lookup_releases_on_type_mismatch (w : World) (data : Option Nat) :
    (∀ d, w.bus.find? (of_dev_node_match data) = some d →
        d.kind ≠ DevKind.client →
        of_find_i2c_device_by_node w data
          = (none, [Ev.busFind, Ev.getRef d.id, Ev.putRef d.id]))
    ∧ (∀ d, w.bus.find? (of_dev_or_parent_node_match data) = some d →
        d.kind ≠ DevKind.adapter →
        of_find_i2c_adapter_by_node w data
          = (none, [Ev.busFind, Ev.getRef d.id, Ev.putRef d.id]))
    ∧ (∀ c ev, of_find_i2c_device_by_node w data = (some c, ev) →
        c.kind = DevKind.client)
    ∧ (∀ a ev, of_find_i2c_adapter_by_node w data = (some a, ev) →
        a.kind = DevKind.adapter) := by
  refine ⟨?_, ?_, ?_, ?_⟩
  · intro d hd hk
    simp [of_find_i2c_device_by_node, bus_find_device, hd,
          i2c_verify_client, hk]
  · intro d hd hk
    simp [of_find_i2c_adapter_by_node, bus_find_device, hd,
          i2c_verify_adapter, hk]
  · intro c ev h
    rcases hf : w.bus.find? (of_dev_node_match data) with _ | d
    · simp [of_find_i2c_device_by_node, bus_find_device, hf] at h
    · rcases hv : i2c_verify_client d with _ | x
      · simp [of_find_i2c_device_by_node, bus_find_device, hf, hv] at h
      · have hx := verify_client_some d x hv
        simp only [of_find_i2c_device_by_node, bus_find_device, hf, hv,
                   Prod.mk.injEq, Option.some.injEq] at h
        rw [← h.1]
        exact hx
  · intro a ev h
    rcases hf : w.bus.find? (of_dev_or_parent_node_match data) with _ | d
    · simp [of_find_i2c_adapter_by_node, bus_find_device, hf] at h
    · rcases hv : i2c_verify_adapter d with _ | x
      · simp [of_find_i2c_adapter_by_node, bus_find_device, hf, hv] at h
      · have hx := verify_adapter_some d x hv
        simp only [of_find_i2c_adapter_by_node, bus_find_device, hf, hv,
                   Prod.mk.injEq, Option.some.injEq] at h
        rw [← h.1]
        exact hx

/-- Concrete world holding a single adapter at node 5, so that a device
lookup by node 5 finds it and fails client verification. -/
def worldOneAdapter : World :=
  { pop := [],
    bus := [{ id := 3, kind := DevKind.adapter, node := some 5,
              parentNode := none, info := none }],
    nextId := 4 }

theorem lookup_releases_on_type_mismatch_witness :
    of_find_i2c_device_by_node worldOneAdapter (some 5)
      = (none, [Ev.busFind, Ev.getRef 3, Ev.putRef 3]) :=
  (lookup_releases_on_type_mismatch worldOneAdapter (some 5)).1
    { id := 3, kind := DevKind.adapter, node := some 5,
      parentNode := none, info := none }
    (by decide) (by decide)

/-- C6: in the fallback matcher, a candidate compatible string that
contains the vendor separator matches a device name that agrees with the
stripped suffix up to letter case; the comparison of the stripped suffix
is case-insensitive. -/
theorem fallback_strip_case_insensitive (cname : String) (m : of_device_id)
    (rest : List of_device_id) (suf : List Char)
    (h0 : m.compatible ≠ "")
    (hsep : afterComma m.compatible.toList = some suf)
    (hci : cname.toList.map Char.toLower = suf.map Char.toLower) :
    (i2c_of_match_device_sysfs cname (m :: rest)).1 = some m := by
  have hs : stripVendorName m.compatible = String.mk suf := by
    have hsep2 : afterComma m.compatible.data = some suf := hsep
    simp [stripVendorName, hsep2]
  have hq : sysfs_streq cname (stripVendorName m.compatible) = true := by
    rw [hs]
    simp only [sysfs_streq, String.toList, beq_iff_eq]
    exact hci
  by_cases hfull : sysfs_streq cname m.compatible = true
  · simp [i2c_of_match_device_sysfs, h0, hfull]
  · simp [i2c_of_match_device_sysfs, h0, hfull, hq]

theorem fallback_strip_case_insensitive_witness :
    (i2c_of_match_device_sysfs "FOO-Dev"
        [{ compatible := "vend,foo-dev" }]).1
      = some { compatible := "vend,foo-dev" } :=
  fallback_strip_case_insensitive "FOO-Dev" { compatible := "vend,foo-dev" }
    [] ("foo-dev".toList) (by decide) (by decide) (by decide)

lemma fallback_skips_nonmatching (cname : String) (pre : List of_device_id)
    (m : of_device_id) (post : List of_device_id)
    (hpre : ∀ x ∈ pre, x.compatible ≠ "" ∧ entryMatches cname x = false)
    (hm0 : m.compatible ≠ "") (hm : entryMatches cname m = true) :
    (i2c_of_match_device_sysfs cname (pre ++ m :: post)).1 = some m := by
  induction pre with
  | nil =>
    by_cases hfull : sysfs_streq cname m.compatible = true
    · simp [i2c_of_match_device_sysfs, hm0, hfull]
    · have hstrip : sysfs_streq cname (stripVendorName m.compatible) = true := by
        simp only [entryMatches, Bool.or_eq_true] at hm
        rcases hm with hm | hm
        · exact absurd hm hfull
        · exact hm
      simp [i2c_of_match_device_sysfs, hm0, hfull, hstrip]
  | cons x xs ih =>
    obtain ⟨hx0, hxm⟩ := hpre x (List.mem_cons_self x xs)
    simp only [entryMatches, Bool.or_eq_false_iff] at hxm
    obtain ⟨hxf, hxs⟩ := hxm
    have ihx := ih (fun y hy => hpre y (List.mem_cons_of_mem x hy))
    simp only [List.cons_append, i2c_of_match_device_sysfs, hx0, hxf, hxs,
               if_neg, ite_false, Bool.false_eq_true]
    exact ihx

/-- C10: entries of the fallback matcher are scanned in list order and
the first entry accepted by either comparison wins, so an earlier
matching entry shadows any later one; within one entry the full
compatible string is compared first and suffices on its own (the
stripped comparison is not consulted), and the stripped comparison is
consulted only after the full comparison has failed. -/
theorem fallback_order_full_first (cname : String) (pre : List of_device_id)
    (m : of_device_id) (post : List of_device_id)
    (hpre : ∀ x ∈ pre, x.compatible ≠ "" ∧ entryMatches cname x = false)
    (hm0 : m.compatible ≠ "") (hm : entryMatches cname m = true) :
    (i2c_of_match_device_sysfs cname (pre ++ m :: post)).1 = some m
    ∧ (sysfs_streq cname m.compatible = true →
        i2c_of_match_device_sysfs cname (m :: post)
          = (some m, [MEv.cmpFull m.compatible]))
    ∧ (sysfs_streq cname m.compatible = false →
        i2c_of_match_device_sysfs cname (m :: post)
          = (some m, [MEv.cmpFull m.compatible,
                      MEv.cmpStripped m.compatible])) := by
  refine ⟨fallback_skips_nonmatching cname pre m post hpre hm0 hm, ?_, ?_⟩
  · intro hfull
    simp [i2c_of_match_device_sysfs, hm0, hfull]
  · intro hfull
    have hstrip : sysfs_streq cname (stripVendorName m.compatible) = true := by
      simp only [entryMatches, Bool.or_eq_true] at hm
      rcases hm with hm | hm
      · rw [hm] at hfull
        exact Bool.noConfusion hfull
      · exact hm
    simp [i2c_of_match_device_sysfs, hm0, hfull, hstrip]

theorem fallback_order_full_first_witness :
    (i2c_of_match_device_sysfs "foo-dev"
        [{ compatible := "zzz" }, { compatible := "vend,foo-dev" },
         { compatible := "foo-dev" }]).1
      = some { compatible := "vend,foo-dev" }
    ∧ (sysfs_streq "foo-dev" "vend,foo-dev" = true →
        i2c_of_match_device_sysfs "foo-dev"
            [{ compatible := "vend,foo-dev" }, { compatible := "foo-dev" }]
          = (some { compatible := "vend,foo-dev" },
             [MEv.cmpFull "vend,foo-dev"]))
    ∧ (sysfs_streq "foo-dev" "vend,foo-dev" = false →
        i2c_of_match_device_sysfs "foo-dev"
            [{ compatible := "vend,foo-dev" }, { compatible := "foo-dev" }]
          = (some { compatible := "vend,foo-dev" },
             [MEv.cmpFull "vend,foo-dev", MEv.cmpStripped "vend,foo-dev"])) :=
  fallback_order_full_first "foo-dev" [{ compatible := "zzz" }]
    { compatible := "vend,foo-dev" } [{ compatible := "foo-dev" }]
    (by decide) (by decide) (by decide)

lemma board_info_of_node (nid : Nat) (node : OFNode) (info : BoardInfo)
    (h : of_i2c_get_board_info nid node = Except.ok info) :
    info.of_node = nid := by
  rcases hm : node.modalias with _ | ty
  · simp [of_i2c_get_board_info, hm] at h
  · rcases hr : node.reg with ret | a
    · simp [of_i2c_get_board_info, hm, hr] at h
    · simp only [of_i2c_get_board_info, hm, hr] at h
      injection h with h
      subst h
      rfl

/-- C7: walking an adapter whose node has an "i2c-bus" container child
with one enabled, unclaimed, well-formed node n1 and one disabled node n2
registers exactly one device, the one for n1 (one build event and one
registrar call, both for n1); n1 ends up claimed and n2 is never touched:
its claim state is unchanged. -/
theorem populate_registers_only_enabled (regOK : BoardInfo → Bool)
    (tr : Nat → OFNode) (w : World) (a b n1 n2 : Nat) (info : BoardInfo)
    (hch : (tr a).children = [b])
    (hbn : (tr b).name = "i2c-bus")
    (hkids : (tr b).children = [n1, n2])
    (h1a : (tr n1).available = true)
    (h2a : (tr n2).available = false)
    (h12 : n1 ≠ n2)
    (h1p : n1 ∉ w.pop)
    (hinfo : of_i2c_get_board_info n1 (tr n1) = Except.ok info)
    (hok : regOK info = true) :
    (of_i2c_register_devices regOK tr ⟨some a⟩ w).1.bus
        = w.bus ++ [{ id := w.nextId, kind := DevKind.client,
                      node := some n1, parentNode := some (some a),
                      info := some info }]
    ∧ (of_i2c_register_devices regOK tr ⟨some a⟩ w).1.pop = n1 :: w.pop
    ∧ (of_i2c_register_devices regOK tr ⟨some a⟩ w).2
        = [Ev.buildInfo n1, Ev.newDev n1]
    ∧ (n2 ∈ (of_i2c_register_devices regOK tr ⟨some a⟩ w).1.pop
        ↔ n2 ∈ w.pop) := by
  have hofn := board_info_of_node n1 (tr n1) info hinfo
  have hbus : (tr a).children.find? (fun c => (tr c).name = "i2c-bus")
      = some b := by
    simp [hch, List.find?, hbn]
  have hkf : ((tr b).children).filter (fun c => (tr c).available) = [n1] := by
    simp [hkids, List.filter, h1a, h2a]
  have hts : of_node_test_and_set_flag w.pop n1 = (false, n1 :: w.pop) := by
    simp [of_node_test_and_set_flag, h1p]
  refine ⟨?_, ?_, ?_, ?_⟩ <;>
    simp [of_i2c_register_devices, hbus, hkf, registerDevicesLoop, hts,
          of_i2c_register_device, hinfo, i2c_new_device, hok, hofn,
          List.mem_cons, Ne.symm h12]

/-- Concrete description tree for the bulk-populate scenario: node 0 is
the adapter node with container child 1 named "i2c-bus", whose children
are the enabled eeprom node 2 (address 0x50) and the disabled node 3. -/
def treePopulate : Nat → OFNode := fun n =>
  if n = 0 then
    { name := "adap", available := true, parent := none, children := [1],
      modalias := none, reg := Except.error (-22),
      hostNotify := false, wakeupSource := false }
  else if n = 1 then
    { name := "i2c-bus", available := true, parent := some 0,
      children := [2, 3], modalias := none, reg := Except.error (-22),
      hostNotify := false, wakeupSource := false }
  else if n = 2 then
    { name := "eeprom", available := true, parent := some 1, children := [],
      modalias := some "eeprom", reg := Except.ok 0x50,
      hostNotify := false, wakeupSource := false }
  else
    { name := "disabled", available := false, parent := some 1,
      children := [], modalias := some "eeprom", reg := Except.ok 0x51,
      hostNotify := false, wakeupSource := false }

theorem populate_registers_only_enabled_witness :
    (of_i2c_register_devices (fun _ => true) treePopulate ⟨some 0⟩
        { pop := [], bus := [], nextId := 0 }).1.bus
      = [] ++ [{ id := 0, kind := DevKind.client, node := some 2,
                 parentNode := some (some 0),
                 info := some { type := "eeprom", addr := 0x50, flags := 0,
                                of_node := 2 } }]
    ∧ (of_i2c_register_devices (fun _ => true) treePopulate ⟨some 0⟩
        { pop := [], bus := [], nextId := 0 }).1.pop = 2 :: []
    ∧ (of_i2c_register_devices (fun _ => true) treePopulate ⟨some 0⟩
        { pop := [], bus := [], nextId := 0 }).2
      = [Ev.buildInfo 2, Ev.newDev 2]
    ∧ (3 ∈ (of_i2c_register_devices (fun _ => true) treePopulate ⟨some 0⟩
        { pop := [], bus := [], nextId := 0 }).1.pop ↔ 3 ∈ ([] : List Nat)) :=
  populate_registers_only_enabled (fun _ => true) treePopulate
    { pop := [], bus := [], nextId := 0 } 0 1 2 3
    { type := "eeprom", addr := 0x50, flags := 0, of_node := 2 }
    (by decide) (by decide) (by decide) (by decide) (by decide) (by decide)
    (by decide) (by decide) (by decide)

/-- Concrete description tree for the add-event scenario with raw address
0x1050: node 2 is the adapter node, node 3 the added child whose "reg"
property reads 0x1050. -/
def treeRaw1050 : Nat → OFNode := fun n =>
  if n = 2 then
    { name := "adap", available := true, parent := none, children := [3],
      modalias := none, reg := Except.error (-22),
      hostNotify := false, wakeupSource := false }
  else if n = 3 then
    { name := "n3", available := true, parent := some 2, children := [],
      modalias := some "acme", reg := Except.ok 0x1050,
      hostNotify := false, wakeupSource := false }
  else
    { name := "other", available := false, parent := none, children := [],
      modalias := none, reg := Except.error (-22),
      hostNotify := false, wakeupSource := false }

/-- The same tree with node 3 carrying raw address 0x80000050, the form
that actually sets the high ten-bit sentinel bit. -/
def treeRaw80000050 : Nat → OFNode := fun n =>
  if n = 2 then
    { name := "adap", available := true, parent := none, children := [3],
      modalias := none, reg := Except.error (-22),
      hostNotify := false, wakeupSource := false }
  else if n = 3 then
    { name := "n3", available := true, parent := some 2, children := [],
      modalias := some "acme", reg := Except.ok 0x80000050,
      hostNotify := false, wakeupSource := false }
  else
    { name := "other", available := false, parent := none, children := [],
      modalias := none, reg := Except.error (-22),
      hostNotify := false, wakeupSource := false }

/-- World holding one live adapter whose source node is 2, the parent of
the added node 3. -/
def worldAdapTwo : World :=
  { pop := [],
    bus := [{ id := 0, kind := DevKind.adapter, node := some 2,
              parentNode := none, info := none }],
    nextId := 1 }

/-- The client the add event creates from raw address 0x1050. -/
def clientRaw1050 : BusDev :=
  { id := 1, kind := DevKind.client, node := some 3,
    parentNode := some (some 2),
    info := some { type := "acme", addr := 0x1050, flags := 0,
                   of_node := 3 } }

/-- C4 counterexample: an add event for a node whose "reg" property reads
the raw value 0x1050 succeeds, but the created device keeps numeric
address 0x1050 with an empty flag set: under the high-marker-bit sentinel
neither the ten-bit flag is set nor is the address 0x050, contradicting
the claimed decoding of 0x1050. -/
theorem add_event_raw_1050_keeps_address :
    ((of_i2c_notify (fun _ => true) treeRaw1050 worldAdapTwo
        ReconfigChange.add 3).2.1).bus
      = worldAdapTwo.bus ++ [clientRaw1050]
    ∧ (clientRaw1050.info.map BoardInfo.flags).getD 99 &&& I2C_CLIENT_TEN = 0
    ∧ ¬ (clientRaw1050.info.map BoardInfo.addr).getD 99 = 0x050 := by
  decide

/-- The client the add event creates from raw address 0x80000050. -/
def clientTenBit : BusDev :=
  { id := 1, kind := DevKind.client, node := some 3,
    parentNode := some (some 2),
    info := some { type := "acme", addr := 0x050, flags := 0x10,
                   of_node := 3 } }

/-- C4 amended: an add event for a node whose parent resolves to a live
adapter and whose "reg" property reads the raw value 0x80000050 (the
ten-bit sentinel, the high marker bit, set over address 0x050) produces a
new live device whose descriptor has the ten-bit flag set and numeric
address 0x050, and the event is accepted with NOTIFY_OK. -/
theorem add_event_ten_bit_sentinel_decoded :
    ((of_i2c_notify (fun _ => true) treeRaw80000050 worldAdapTwo
        ReconfigChange.add 3).2.1).bus
      = worldAdapTwo.bus ++ [clientTenBit]
    ∧ (clientTenBit.info.map BoardInfo.flags).getD 0 &&& I2C_CLIENT_TEN ≠ 0
    ∧ (clientTenBit.info.map BoardInfo.addr).getD 99 = 0x050
    ∧ (of_i2c_notify (fun _ => true) treeRaw80000050 worldAdapTwo
        ReconfigChange.add 3).1 = NOTIFY_OK := by
  decide
